import Mathlib

/-!
Verification of the Device-Condition-Monitor core: a shallow embedding of
the CSV/JSON record codec, the durable store content computations and the
field-validation pipeline from `src/Demo.cpp` and the JSON-writer
translation unit, with theorems settling the specification's claims.
Strings are modelled as `String` / `List Char`; the source's byte-wise
loops coincide with the character-wise model on the ASCII inputs the
program handles.
-/

namespace DCM

/-! ## CSV codec: csv_escape and parse_csv_line (src/Demo.cpp 168-233) -/

/-- Scan of `csv_escape` deciding whether the value must be quoted: true
exactly when the value holds a double quote, a comma, an LF or a CR. -/
def needQuotes (s : List Char) : Bool :=
  s.any (fun c => c = '"' || c = ',' || c = '\n' || c = '\r')

/-- Body of the quoting loop of `csv_escape`. The source's branch for a
double quote executes `out.append("""")`: its argument is two adjacent
empty string literals, i.e. the empty string, so a double quote in the
value contributes nothing to the output. Every other character is copied
through. -/
def csvEscapeBody : List Char → List Char
  | [] => []
  | c :: rest => if c = '"' then csvEscapeBody rest else c :: csvEscapeBody rest

/-- `csv_escape` (src/Demo.cpp 168-185): values needing quotes are wrapped
in double quotes around the processed body; all other values are returned
verbatim. -/
def csv_escape (s : List Char) : List Char :=
  if needQuotes s then '"' :: (csvEscapeBody s ++ ['"']) else s

/-- Loop of `parse_csv_line` (src/Demo.cpp 187-233): `inQ` is the
`inQuotes` flag, `cur` the column being assembled, `cols` the finished
columns. Inside quotes a doubled quote appends one literal quote and a
single quote leaves quoted mode; outside quotes a quote enters quoted
mode and a comma finishes the current column. At the end of the input the
current column is pushed. -/
def parseCsvAux : Bool → List Char → List (List Char) → List Char → List (List Char)
  | _, cur, cols, [] => cols ++ [cur]
  | true, cur, cols, '"' :: '"' :: rest => parseCsvAux true (cur ++ ['"']) cols rest
  | true, cur, cols, '"' :: rest => parseCsvAux false cur cols rest
  | true, cur, cols, c :: rest => parseCsvAux true (cur ++ [c]) cols rest
  | false, cur, cols, '"' :: rest => parseCsvAux true cur cols rest
  | false, cur, cols, ',' :: rest => parseCsvAux false [] (cols ++ [cur]) rest
  | false, cur, cols, c :: rest => parseCsvAux false (cur ++ [c]) cols rest

/-- `parse_csv_line` (src/Demo.cpp 187-233). -/
def parse_csv_line (line : List Char) : List (List Char) :=
  parseCsvAux false [] [] line

/-- Commas outside quoted regions, counted with the same in-quotes state
transitions as `parse_csv_line`. -/
def countCommasAux : Bool → List Char → Nat
  | _, [] => 0
  | true, '"' :: '"' :: rest => countCommasAux true rest
  | true, '"' :: rest => countCommasAux false rest
  | true, _ :: rest => countCommasAux true rest
  | false, '"' :: rest => countCommasAux true rest
  | false, ',' :: rest => countCommasAux false rest + 1
  | false, _ :: rest => countCommasAux false rest

/-- Commas of the line lying outside quoted regions. -/
def countUnquotedCommas (line : List Char) : Nat :=
  countCommasAux false line

theorem parseCsvAux_length (inQ : Bool) (cur : List Char)
    (cols : List (List Char)) (l : List Char) :
    (parseCsvAux inQ cur cols l).length = cols.length + 1 + countCommasAux inQ l := by
  induction inQ, cur, cols, l using parseCsvAux.induct <;>
    (simp_all [parseCsvAux, countCommasAux]; try omega)

/-- C10: `parse_csv_line` always returns at least one column; the number of
columns is one more than the number of commas outside quoted regions; the
empty line yields exactly one empty column. -/
theorem c10_parse_csv_columns (line : List Char) :
    parse_csv_line line ≠ []
    ∧ (parse_csv_line line).length = 1 + countUnquotedCommas line
    ∧ parse_csv_line [] = [[]] := by
  have h := parseCsvAux_length false [] [] line
  refine ⟨?_, ?_, rfl⟩
  · intro hnil
    rw [parse_csv_line] at hnil
    rw [hnil] at h
    simp only [List.length_nil, List.length] at h
    omega
  · rw [parse_csv_line, h]
    simp [countUnquotedCommas]

/-- C1: the claimed escape-then-parse round-trip fails on the one-character
string consisting of a double quote: the source's `out.append("""")`
appends an empty string literal, so the quote is dropped and parsing the
escaped value yields the empty column instead of the original string. The
identity half of the claim does hold on quote-free text such as `ab`. -/
theorem c1_csv_roundtrip_quote_bug :
    parse_csv_line (csv_escape ['"']) = [[]]
    ∧ [[]] ≠ [[('"' : Char)]]
    ∧ csv_escape ['a', 'b'] = ['a', 'b']
    ∧ parse_csv_line (csv_escape ['a', ',', 'b']) = [['a', ',', 'b']] := by
  decide

/-- C2: on the one-character string consisting of a double quote,
`csv_escape` emits only the two wrapping quotes - the internal quote is
deleted, not doubled - whereas the claim requires the four-character
result of doubling it inside the wrapping quotes. The wrap-iff-special
half of the claim is shown on two small inputs. -/
theorem c2_csv_escape_quote_bug :
    csv_escape ['"'] = ['"', '"']
    ∧ ['"', '"'] ≠ ['"', '"', '"', '"']
    ∧ needQuotes ['"'] = true
    ∧ csv_escape ['x'] = ['x']
    ∧ csv_escape ['a', '\n'] = ['"', 'a', '\n', '"'] := by
  decide

/-! ## Durable store, CSV append (src/Demo.cpp 245-266) -/

/-- Header line written by `save_device_csv` when it creates the file
(src/Demo.cpp 262). Its first column is `uuid`. -/
def csvHeader : String :=
  "uuid,created_at,operator_id,instance_id,app_version,device_id,device_name,status,action_type,voltage,temperature,severity,ui_latency_ms,notes"

/-- `save_device_csv` modelled on the content of the target path: `none`
means the file does not exist. The file is opened in append mode; when it
did not previously exist the header line is written first; the row is
written followed by a newline. -/
def save_device_csv (file : Option String) (row : String) : String :=
  match file with
  | none => csvHeader ++ "\n" ++ row ++ "\n"
  | some content => content ++ row ++ "\n"

/-- Repeated appends of rows through `save_device_csv`, in order. -/
def saveCsvAll (file : Option String) : List String → Option String
  | [] => file
  | r :: rs => saveCsvAll (some (save_device_csv file r)) rs

/-- Concatenation of rows, each terminated by a newline. -/
def rowsBlock : List String → String
  | [] => ""
  | r :: rs => r ++ "\n" ++ rowsBlock rs

theorem string_append_assoc (a b c : String) : a ++ b ++ c = a ++ (b ++ c) := by
  apply String.ext
  simp [String.data_append, List.append_assoc]

theorem string_append_empty (a : String) : a ++ "" = a := by
  apply String.ext
  simp [String.data_append]

theorem saveCsvAll_some (rs : List String) (c : String) :
    saveCsvAll (some c) rs = some (c ++ rowsBlock rs) := by
  induction rs generalizing c with
  | nil => simp [saveCsvAll, rowsBlock, string_append_empty]
  | cons r rest ih =>
      simp only [saveCsvAll, save_device_csv, rowsBlock, ih, string_append_assoc]

set_option maxRecDepth 8192 in
/-- C3 fails as stated: after appending one row to a fresh path the file
content starts with the header field `uuid`, not `id` - the header line is
`uuid,created_at,...`, not the claimed `id,created_at,...`. -/
theorem c3_csv_header_counterexample :
    saveCsvAll none ["r1"] = some (csvHeader ++ "\n" ++ "r1" ++ "\n")
    ∧ ("uuid,created_at".data).isPrefixOf ((saveCsvAll none ["r1"]).getD "").data = true
    ∧ ("id,created_at".data).isPrefixOf ((saveCsvAll none ["r1"]).getD "").data = false := by
  refine ⟨rfl, by decide, by decide⟩

/-- C3 amended: appending N >= 1 records to a path whose file does not
initially exist yields exactly the header line
`uuid,created_at,operator_id,instance_id,app_version,device_id,device_name,status,action_type,voltage,temperature,severity,ui_latency_ms,notes`
followed by the N rows in write order, each terminated by a newline; and
an append to an existing file leaves the prior content untouched as a
prefix, only adding the row - the header is written solely on first
creation. -/
theorem c3_csv_append_contents (rows : List String) (h : rows ≠ [])
    (prior row : String) :
    saveCsvAll none rows = some (csvHeader ++ "\n" ++ rowsBlock rows)
    ∧ save_device_csv (some prior) row = prior ++ (row ++ "\n") := by
  constructor
  · match rows, h with
    | r :: rs, _ =>
        simp only [saveCsvAll, save_device_csv, saveCsvAll_some, rowsBlock,
          string_append_assoc]
  · simp only [save_device_csv, string_append_assoc]

theorem c3_csv_append_contents_witness :
    saveCsvAll none ["a", "b"] = some (csvHeader ++ "\n" ++ rowsBlock ["a", "b"])
    ∧ save_device_csv (some "p") "q" = "p" ++ ("q" ++ "\n") :=
  c3_csv_append_contents ["a", "b"] (by decide) "p" "q"

/-! ## Durable store, JSON array merge (src/unnamed/part_000 79-105) -/

/-- Trailing-whitespace trim of the file content read by
`save_device_json`: `find_last_not_of(" \t\r\n")` followed by `resize`
(or `clear` when everything is whitespace). -/
def rstripWs (s : List Char) : List Char :=
  (s.reverse.dropWhile (fun c => c = ' ' || c = '\t' || c = '\r' || c = '\n')).reverse

/-- New-content computation of `save_device_json` (src/unnamed/part_000
79-105): `none` means the file does not exist, in which case the content
read is empty. After trimming, an empty or `[]` content yields a
single-element array; a content with front `[` and back `]` has its final
`]` replaced by `,` + object + `]`; anything else is treated as empty and
replaced by the single-element array. -/
def save_device_json_content (prior : Option (List Char)) (obj : List Char) : List Char :=
  let content : List Char :=
    match prior with
    | none => []
    | some c => rstripWs c
  if content = [] ∨ content = ['[', ']'] then
    '[' :: (obj ++ [']'])
  else if content.head? = some '[' ∧ content.getLast? = some ']' then
    content.dropLast ++ (',' :: (obj ++ [']']))
  else
    '[' :: (obj ++ [']'])

/-- C4: the new content of the JSON log is computed exactly as claimed:
after trimming trailing whitespace, empty or `[]` prior content yields
`[` + object + `]`; prior content starting with `[` and ending with `]`
has its final `]` removed and `,` + object + `]` appended; any other
prior content is treated as empty and replaced by the single-element
array - the computation is total, so malformed prior content is never an
error. -/
theorem c4_json_merge_rules (prior : Option (List Char)) (obj : List Char) :
    (rstripWs (prior.getD []) = [] ∨ rstripWs (prior.getD []) = ['[', ']'] →
      save_device_json_content prior obj = '[' :: (obj ++ [']']))
    ∧ (rstripWs (prior.getD []) ≠ ['[', ']'] →
      (rstripWs (prior.getD [])).head? = some '[' →
      (rstripWs (prior.getD [])).getLast? = some ']' →
      save_device_json_content prior obj =
        (rstripWs (prior.getD [])).dropLast ++ (',' :: (obj ++ [']'])))
    ∧ (¬ ((rstripWs (prior.getD [])).head? = some '[' ∧
          (rstripWs (prior.getD [])).getLast? = some ']') →
      save_device_json_content prior obj = '[' :: (obj ++ [']'])) := by
  cases prior with
  | none =>
      simp only [Option.getD_none]
      refine ⟨fun _ => rfl, fun _ hh _ => ?_, fun _ => rfl⟩
      simp [rstripWs] at hh
  | some c =>
      simp only [Option.getD_some]
      by_cases h0 : rstripWs c = [] ∨ rstripWs c = ['[', ']']
      · have hres : save_device_json_content (some c) obj = '[' :: (obj ++ [']']) := by
          simp only [save_device_json_content]
          rw [if_pos h0]
        refine ⟨fun _ => hres, fun hne hh hl => ?_, fun _ => hres⟩
        rcases h0 with h0 | h0
        · rw [h0] at hh
          simp at hh
        · exact absurd h0 hne
      · by_cases h1 : (rstripWs c).head? = some '[' ∧ (rstripWs c).getLast? = some ']'
        · have hres : save_device_json_content (some c) obj =
              (rstripWs c).dropLast ++ (',' :: (obj ++ [']'])) := by
            simp only [save_device_json_content]
            rw [if_neg h0, if_pos h1]
          exact ⟨fun hc => absurd hc h0, fun _ _ _ => hres, fun hn => absurd h1 hn⟩
        · have hres : save_device_json_content (some c) obj = '[' :: (obj ++ [']']) := by
            simp only [save_device_json_content]
            rw [if_neg h0, if_neg h1]
          exact ⟨fun hc => absurd hc h0, fun _ hh hl => absurd ⟨hh, hl⟩ h1, fun _ => hres⟩

/-! ## JSON escaping and the record object written by the JSON writer
(src/unnamed/part_000 42-68 and 127-144) -/

/-- Lower-case hex digit of a value below 16, as `std::hex` prints it. -/
def hexDigit (n : Nat) : Char :=
  if n < 10 then Char.ofNat ('0'.toNat + n) else Char.ofNat ('a'.toNat + (n - 10))

/-- Escape of one character in `json_escape`: the named escapes, a
`\u00XX` sequence for other control characters below 0x20, and the
character itself otherwise. -/
def jsonEscapeChar (c : Char) : List Char :=
  if c = '"' then ['\\', '"']
  else if c = '\\' then ['\\', '\\']
  else if c = '\x08' then ['\\', 'b']
  else if c = '\x0c' then ['\\', 'f']
  else if c = '\n' then ['\\', 'n']
  else if c = '\r' then ['\\', 'r']
  else if c = '\t' then ['\\', 't']
  else if c.toNat < 0x20 then
    ['\\', 'u', '0', '0', hexDigit (c.toNat / 16), hexDigit (c.toNat % 16)]
  else [c]

/-- `json_escape` (src/unnamed/part_000 42-68). -/
def json_escape (s : List Char) : List Char :=
  (s.map jsonEscapeChar).flatten

/-- One `"key":"value"` member as the writer renders it. -/
def jsonMember (key value : List Char) : List Char :=
  '"' :: (key ++ ('"' :: ':' :: '"' :: (value ++ ['"'])))

/-- Members joined by commas. -/
def joinComma : List (List Char) → List Char
  | [] => []
  | [m] => m
  | m :: rest => m ++ (',' :: joinComma rest)

/-- Flat-object rendering: the members joined by commas, wrapped in
braces. -/
def renderFlatObject (ms : List (List Char × List Char)) : List Char :=
  '\x7b' :: (joinComma (ms.map fun m => jsonMember m.1 m.2) ++ ['\x7d'])

/-- Key/value members of the record object assembled in `main`
(src/unnamed/part_000 131-140): eight members, every value a string. -/
def deviceObjMembers (uuid ts : List Char) : List (List Char × List Char) :=
  [ ("uuid".data, json_escape uuid),
    ("created_at".data, json_escape ts),
    ("device_id".data, "test-id".data),
    ("device_name".data, "test-device".data),
    ("status".data, "Online".data),
    ("voltage".data, "12.3".data),
    ("temperature".data, "36.5".data),
    ("comment".data, "auto-generated test entry".data) ]

/-- The record object string assembled in `main` (src/unnamed/part_000
131-140), modelled fragment by fragment from the concatenations in the
source. -/
def build_device_obj (uuid ts : List Char) : List Char :=
  "\x7b".data
  ++ ("\"uuid\":\"".data ++ json_escape uuid ++ "\",".data)
  ++ ("\"created_at\":\"".data ++ json_escape ts ++ "\",".data)
  ++ "\"device_id\":\"test-id\",".data
  ++ "\"device_name\":\"test-device\",".data
  ++ "\"status\":\"Online\",".data
  ++ "\"voltage\":\"12.3\",".data
  ++ "\"temperature\":\"36.5\",".data
  ++ "\"comment\":\"auto-generated test entry\"".data
  ++ "\x7d".data

/-- C9 fails as stated: the object written to the JSON log has eight keys,
not the fourteen attributes of the data model; in particular neither
`operator_id` nor `id` is among its keys (the identifier key is `uuid`),
and `notes` is rendered as `comment`. -/
theorem c9_fourteen_keys_counterexample :
    ((deviceObjMembers [] []).map Prod.fst).length = 8
    ∧ "operator_id".data ∉ (deviceObjMembers [] []).map Prod.fst
    ∧ "id".data ∉ (deviceObjMembers [] []).map Prod.fst
    ∧ "notes".data ∉ (deviceObjMembers [] []).map Prod.fst
    ∧ "uuid".data ∈ (deviceObjMembers [] []).map Prod.fst := by
  decide

set_option maxRecDepth 16384 in
/-- C9 amended: every record object written to the JSON log is a flat JSON
object whose keys are exactly `uuid`, `created_at`, `device_id`,
`device_name`, `status`, `voltage`, `temperature`, `comment`, every value
a string - the numeric fields voltage and temperature are rendered as
their literal decimal text `12.3` and `36.5` inside string quotes, not as
JSON numbers. -/
theorem c9_json_object_shape (uuid ts : List Char) :
    build_device_obj uuid ts = renderFlatObject (deviceObjMembers uuid ts)
    ∧ (deviceObjMembers uuid ts).map Prod.fst =
        ["uuid".data, "created_at".data, "device_id".data, "device_name".data,
         "status".data, "voltage".data, "temperature".data, "comment".data]
    ∧ (deviceObjMembers uuid ts).map Prod.snd =
        [json_escape uuid, json_escape ts, "test-id".data, "test-device".data,
         "Online".data, "12.3".data, "36.5".data,
         "auto-generated test entry".data] := by
  refine ⟨?_, rfl, rfl⟩
  simp only [build_device_obj, renderFlatObject, deviceObjMembers, jsonMember,
    joinComma, List.map, List.append_assoc, List.cons_append, List.nil_append]

/-! ## Numeric parsing used by the range validators (std::stof and
std::stoi on the decimal grammar) -/

/-- Whitespace skipped by strtof/strtol before the number. -/
def isSpaceC (c : Char) : Bool :=
  c = ' ' || c = '\t' || c = '\n' || c = '\x0b' || c = '\x0c' || c = '\r'

/-- Value of a digit string read most-significant first. -/
def digitsVal (ds : List Char) : Nat :=
  ds.foldl (fun a c => 10 * a + (c.toNat - '0'.toNat)) 0

/-- Exponent following `e`/`E` in a decimal float literal: optional sign and
digits; with no digit the exponent part is not consumed and contributes
factor one. -/
def expVal (r : List Char) : Int :=
  let signAndRest : Int × List Char :=
    match r with
    | '-' :: t => (-1, t)
    | '+' :: t => (1, t)
    | _ => (1, r)
  let eds := signAndRest.2.takeWhile Char.isDigit
  if eds = [] then 0 else signAndRest.1 * (digitsVal eds : Int)

/-- Decimal-literal prefix parsing of `std::stof`, modelled exactly over the
rationals: optional leading whitespace, optional sign, integer digits with
optional fraction and exponent; `none` when no digit converts (std::stof
throws invalid_argument, which `floatRange` catches). Trailing unconsumed
characters are ignored, as strtof ignores them; the hexadecimal, infinity
and NaN literal forms are outside the modelled input set. -/
def parseFloat (s : List Char) : Option ℚ :=
  let l0 := s.dropWhile isSpaceC
  let signAndRest : Bool × List Char :=
    match l0 with
    | '-' :: r => (true, r)
    | '+' :: r => (false, r)
    | _ => (false, l0)
  let l1 := signAndRest.2
  let intPart := l1.takeWhile Char.isDigit
  let l2 := l1.dropWhile Char.isDigit
  let fracAndRest : List Char × List Char :=
    match l2 with
    | '.' :: r => (r.takeWhile Char.isDigit, r.dropWhile Char.isDigit)
    | _ => ([], l2)
  let fracPart := fracAndRest.1
  if intPart = [] ∧ fracPart = [] then none
  else
    let den : Nat := 10 ^ fracPart.length
    let num : Int := (digitsVal intPart : Int) * den + (digitsVal fracPart : Int)
    let ex : Int :=
      match fracAndRest.2 with
      | 'e' :: r => expVal r
      | 'E' :: r => expVal r
      | _ => 0
    let v : ℚ :=
      if 0 ≤ ex then mkRat (num * 10 ^ ex.toNat) den
      else mkRat num (den * 10 ^ (-ex).toNat)
    some (if signAndRest.1 then -v else v)

/-- Base-10 prefix parsing of `std::stoi`: optional leading whitespace,
optional sign, decimal digits; `none` when no digit converts or the value
overflows a 32-bit int (std::stoi throws, which `intRange` catches). -/
def parseInt (s : List Char) : Option Int :=
  let l0 := s.dropWhile isSpaceC
  let signAndRest : Bool × List Char :=
    match l0 with
    | '-' :: r => (true, r)
    | '+' :: r => (false, r)
    | _ => (false, l0)
  let ds := signAndRest.2.takeWhile Char.isDigit
  if ds = [] then none
  else
    let v : Int := (if signAndRest.1 then -1 else 1) * (digitsVal ds : Int)
    if v < -2147483648 ∨ 2147483647 < v then none else some v

/-! ## Field validators (src/Demo.cpp 33-105, class FormValidator) -/

/-- Outcome of one constraint: valid, or invalid with a display message
(the source's ValidationResult with its implicit bool conversion). -/
structure ValidationResult where
  isValid : Bool
  message : String
deriving Repr, DecidableEq

namespace FormValidator

/-- `FormValidator::required`: fails exactly on the empty value. -/
def required (value fieldName : String) : ValidationResult :=
  if value = "" then ⟨false, fieldName ++ " is required"⟩ else ⟨true, ""⟩

/-- `FormValidator::lengthRange`: a non-empty value must have length within
the closed range; the length is the value's character count. -/
def lengthRange (value : String) (minLen maxLen : Nat) (fieldName : String) :
    ValidationResult :=
  if value ≠ "" ∧ (value.length < minLen ∨ maxLen < value.length) then
    ⟨false, fieldName ++ " must be between " ++ toString minLen ++ " and "
      ++ toString maxLen ++ " characters"⟩
  else ⟨true, ""⟩

/-- `FormValidator::regex`: a non-empty value must fully match the given
pattern, modelled as the whole-string match predicate of that pattern. -/
def regex (value : String) (patternMatch : String → Bool) (fieldName : String) :
    ValidationResult :=
  if value ≠ "" ∧ ¬ patternMatch value then
    ⟨false, fieldName ++ " contains invalid characters"⟩
  else ⟨true, ""⟩

/-- `FormValidator::floatRange`: no-op on the empty value; otherwise the
value must parse via std::stof and lie within the closed range. -/
def floatRange (value : String) (mn mx : ℚ) (fieldName : String) : ValidationResult :=
  if value = "" then ⟨true, ""⟩
  else
    match parseFloat value.data with
    | none => ⟨false, fieldName ++ " must be a valid number"⟩
    | some v =>
        if v < mn ∨ mx < v then
          ⟨false, fieldName ++ " must be between " ++ toString mn ++ " and " ++ toString mx⟩
        else ⟨true, ""⟩

/-- `FormValidator::intRange`: no-op on the empty value; otherwise the
value must parse via std::stoi and lie within the closed range. -/
def intRange (value : String) (mn mx : Int) (fieldName : String) : ValidationResult :=
  if value = "" then ⟨true, ""⟩
  else
    match parseInt value.data with
    | none => ⟨false, fieldName ++ " must be a valid integer"⟩
    | some v =>
        if v < mn ∨ mx < v then
          ⟨false, fieldName ++ " must be between " ++ toString mn ++ " and " ++ toString mx⟩
        else ⟨true, ""⟩

/-- `FormValidator::enumValue`: a non-empty value must be a member of the
allowed set. -/
def enumValue (value : String) (allowedValues : List String) (fieldName : String) :
    ValidationResult :=
  if value ≠ "" ∧ value ∉ allowedValues then
    ⟨false, fieldName ++ " has an invalid value"⟩
  else ⟨true, ""⟩

end FormValidator

/-- C7: `required` fails exactly on the empty value, and every other
constraint passes on the empty value whatever its parameters. -/
theorem c7_empty_value_constraints (value fieldName : String) (minLen maxLen : Nat)
    (patternMatch : String → Bool) (qa qb : ℚ) (ia ib : Int) (allowed : List String) :
    ((FormValidator.required value fieldName).isValid = false ↔ value = "")
    ∧ (FormValidator.lengthRange "" minLen maxLen fieldName).isValid = true
    ∧ (FormValidator.regex "" patternMatch fieldName).isValid = true
    ∧ (FormValidator.floatRange "" qa qb fieldName).isValid = true
    ∧ (FormValidator.intRange "" ia ib fieldName).isValid = true
    ∧ (FormValidator.enumValue "" allowed fieldName).isValid = true := by
  refine ⟨?_, ?_, ?_, rfl, rfl, ?_⟩
  · by_cases h : value = "" <;> simp [FormValidator.required, h]
  · simp [FormValidator.lengthRange]
  · simp [FormValidator.regex]
  · simp [FormValidator.enumValue]

/-- C8: for a non-empty value, `floatRange` fails exactly when the value
does not parse as a float or parses outside the closed range, and
`intRange` fails exactly when the value does not parse as an int or parses
outside the closed range; the scenario values behave as claimed: voltage
`20000` fails the 0..10000 range and temperature `36.5` passes the
-50..250 range. -/
theorem c8_numeric_range_constraints (value : String) (h : value ≠ "")
    (mn mx : ℚ) (im ix : Int) (fieldName : String) :
    ((FormValidator.floatRange value mn mx fieldName).isValid = false ↔
      parseFloat value.data = none
      ∨ ∃ q, parseFloat value.data = some q ∧ (q < mn ∨ mx < q))
    ∧ ((FormValidator.intRange value im ix fieldName).isValid = false ↔
      parseInt value.data = none
      ∨ ∃ n, parseInt value.data = some n ∧ (n < im ∨ ix < n))
    ∧ (FormValidator.floatRange "20000" 0 10000 "Voltage").isValid = false
    ∧ (FormValidator.floatRange "36.5" (-50) 250 "Temperature").isValid = true := by
  refine ⟨?_, ?_, by decide, by decide⟩
  · rw [FormValidator.floatRange, if_neg h]
    cases hp : parseFloat value.data with
    | none => simp [hp]
    | some q =>
        by_cases hq : q < mn ∨ mx < q <;> simp [hp, hq]
  · rw [FormValidator.intRange, if_neg h]
    cases hp : parseInt value.data with
    | none => simp [hp]
    | some n =>
        by_cases hn : n < im ∨ ix < n <;> simp [hp, hn]

theorem c8_numeric_range_witness :
    ((FormValidator.floatRange "20000" (0 : ℚ) (10000 : ℚ) "Voltage").isValid = false ↔
      parseFloat "20000".data = none
      ∨ ∃ q, parseFloat "20000".data = some q ∧ (q < (0 : ℚ) ∨ (10000 : ℚ) < q))
    ∧ ((FormValidator.intRange "20000" (0 : Int) (600000 : Int) "Voltage").isValid = false ↔
      parseInt "20000".data = none
      ∨ ∃ n, parseInt "20000".data = some n ∧ (n < (0 : Int) ∨ (600000 : Int) < n))
    ∧ (FormValidator.floatRange "20000" 0 10000 "Voltage").isValid = false
    ∧ (FormValidator.floatRange "36.5" (-50) 250 "Temperature").isValid = true :=
  c8_numeric_range_constraints "20000" (by decide) 0 10000 0 600000 "Voltage"

/-! ## Whole-record validation (src/Demo.cpp 524-626,
MyFrame::ValidateField and MyFrame::OnAddDevice) -/

/-- One constraint of a field chain, as `ValidateField` receives it. -/
def Constraint : Type := String → String → ValidationResult

/-- `MyFrame::ValidateField`: runs the chain in order, stopping at the
first failing constraint and reporting only its message; `none` means the
field is accepted (the error label is cleared). -/
def runChain (value fieldName : String) : List Constraint → Option String
  | [] => none
  | v :: rest =>
      let r := v value fieldName
      if r.isValid then runChain value fieldName rest else some r.message

/-- Character class of the operator-id pattern `^[a-zA-Z0-9_.-]+$`. -/
def opIdChar (c : Char) : Bool :=
  ('a' ≤ c && c ≤ 'z') || ('A' ≤ c && c ≤ 'Z') || ('0' ≤ c && c ≤ '9')
    || c = '_' || c = '.' || c = '-'

/-- Whole-string match of `^[a-zA-Z0-9_.-]+$`: one or more characters of
the class. -/
def opIdMatch (s : String) : Bool :=
  !(s = "") && s.data.all opIdChar

/-- The twelve raw field values collected from the form controls. -/
structure DeviceForm where
  operatorId : String
  instanceId : String
  appVersion : String
  deviceId : String
  deviceName : String
  status : String
  actionType : String
  voltage : String
  temperature : String
  severity : String
  uiLatency : String
  notes : String

/-- Field chain of Operator ID (src/Demo.cpp 561-565). -/
def operatorIdChain : List Constraint :=
  [ FormValidator.required,
    fun v n => FormValidator.lengthRange v 1 64 n,
    fun v n => FormValidator.regex v opIdMatch n ]

/-- Field chain of Instance ID (src/Demo.cpp 567-570). -/
def instanceIdChain : List Constraint :=
  [ fun v n => FormValidator.lengthRange v 1 64 n ]

/-- Field chain of App Version (src/Demo.cpp 572-575). -/
def appVersionChain : List Constraint :=
  [ fun v n => FormValidator.lengthRange v 0 32 n ]

/-- Field chain of Device ID (src/Demo.cpp 577-580). -/
def deviceIdChain : List Constraint :=
  [ FormValidator.required ]

/-- Field chain of Device Name (src/Demo.cpp 582-585). -/
def deviceNameChain : List Constraint :=
  [ fun v n => FormValidator.lengthRange v 0 128 n ]

/-- Field chain of Status (src/Demo.cpp 587-591). -/
def statusChain : List Constraint :=
  [ FormValidator.required,
    fun v n => FormValidator.enumValue v ["Unknown", "Online", "Offline", "Degraded"] n ]

/-- Field chain of Action Type (src/Demo.cpp 593-597). -/
def actionTypeChain : List Constraint :=
  [ FormValidator.required,
    fun v n => FormValidator.enumValue v ["Check", "Maintenance", "Repair", "Replace"] n ]

/-- Field chain of Voltage (src/Demo.cpp 599-602). -/
def voltageChain : List Constraint :=
  [ fun v n => FormValidator.floatRange v 0 10000 n ]

/-- Field chain of Temperature (src/Demo.cpp 604-607). -/
def temperatureChain : List Constraint :=
  [ fun v n => FormValidator.floatRange v (-50) 250 n ]

/-- Field chain of Severity (src/Demo.cpp 609-612). -/
def severityChain : List Constraint :=
  [ fun v n => FormValidator.enumValue v ["Low", "Medium", "High", "Critical"] n ]

/-- Field chain of UI Latency (src/Demo.cpp 614-617). -/
def uiLatencyChain : List Constraint :=
  [ fun v n => FormValidator.intRange v 0 600000 n ]

/-- Field chain of Notes (src/Demo.cpp 619-622). -/
def notesChain : List Constraint :=
  [ fun v n => FormValidator.lengthRange v 0 500 n ]

/-- The twelve field values in the order `OnAddDevice` validates them. -/
def formFields (f : DeviceForm) : List String :=
  [ f.operatorId, f.instanceId, f.appVersion, f.deviceId, f.deviceName,
    f.status, f.actionType, f.voltage, f.temperature, f.severity,
    f.uiLatency, f.notes ]

/-- The validation step of `OnAddDevice` (src/Demo.cpp 541-622): every
field's chain is evaluated unconditionally, one result per field. -/
def validateForm (f : DeviceForm) : List (Option String) :=
  [ runChain f.operatorId "Operator ID" operatorIdChain,
    runChain f.instanceId "Instance ID" instanceIdChain,
    runChain f.appVersion "App Version" appVersionChain,
    runChain f.deviceId "Device ID" deviceIdChain,
    runChain f.deviceName "Device Name" deviceNameChain,
    runChain f.status "Status" statusChain,
    runChain f.actionType "Action Type" actionTypeChain,
    runChain f.voltage "Voltage" voltageChain,
    runChain f.temperature "Temperature" temperatureChain,
    runChain f.severity "Severity" severityChain,
    runChain f.uiLatency "UI Latency" uiLatencyChain,
    runChain f.notes "Notes" notesChain ]

/-- `hasErrors` accumulation of `OnAddDevice`: the submission proceeds
exactly when no field reported an error. -/
def submitProceeds (f : DeviceForm) : Bool :=
  !(validateForm f).any Option.isSome

/-- Form with the two required text fields Operator ID and Device ID left
blank and every other control at its default. -/
def blankIdsForm : DeviceForm :=
  ⟨"", "", "1.0.0", "", "", "Unknown", "Check", "", "", "Low", "0", ""⟩

theorem runChain_all_pass (value fieldName : String) (vs : List Constraint)
    (h : ∀ u ∈ vs, (u value fieldName).isValid = true) :
    runChain value fieldName vs = none := by
  induction vs with
  | nil => rfl
  | cons v rest ih =>
      have hv := h v (List.mem_cons_self v rest)
      simp only [runChain, hv, if_true]
      exact ih fun u hu => h u (List.mem_cons_of_mem v hu)

theorem runChain_first_failure (value fieldName : String)
    (pre post : List Constraint) (v : Constraint)
    (hpre : ∀ u ∈ pre, (u value fieldName).isValid = true)
    (hv : (v value fieldName).isValid = false) :
    runChain value fieldName (pre ++ v :: post) = some (v value fieldName).message := by
  induction pre with
  | nil => simp [runChain, hv]
  | cons u rest ih =>
      have hu := hpre u (List.mem_cons_self u rest)
      simp only [List.cons_append, runChain, hu, if_true]
      exact ih fun w hw => hpre w (List.mem_cons_of_mem u hw)

/-- C6: the validation step evaluates all twelve field chains; each
field's result depends only on that field's own value, so a failure in one
field never skips another field; a chain stops at its first failing
constraint and reports only that message, all-pass chains are accepted;
the record proceeds to submission exactly when every chain passes; and on
the form with both Operator ID and Device ID blank the two fields report
their own simultaneous error messages. -/
theorem c6_whole_record_validation (f : DeviceForm) :
    (validateForm f).length = 12
    ∧ (submitProceeds f = true ↔ ∀ r ∈ validateForm f, r = none)
    ∧ (∀ g : DeviceForm, ∀ i : Nat,
        (formFields f).getD i "" = (formFields g).getD i "" →
        (validateForm f).getD i none = (validateForm g).getD i none)
    ∧ (∀ value fieldName : String, ∀ pre post : List Constraint, ∀ v : Constraint,
        (∀ u ∈ pre, (u value fieldName).isValid = true) →
        (v value fieldName).isValid = false →
        runChain value fieldName (pre ++ v :: post) = some (v value fieldName).message)
    ∧ (∀ value fieldName : String, ∀ vs : List Constraint,
        (∀ u ∈ vs, (u value fieldName).isValid = true) →
        runChain value fieldName vs = none)
    ∧ (validateForm blankIdsForm).getD 0 none = some "Operator ID is required"
    ∧ (validateForm blankIdsForm).getD 3 none = some "Device ID is required"
    ∧ submitProceeds blankIdsForm = false := by
  refine ⟨rfl, ?_, ?_, ?_, ?_, by decide, by decide, by decide⟩
  · simp only [submitProceeds, Bool.not_eq_true', List.any_eq_false]
    constructor
    · intro h r hr
      have := h r hr
      simpa [Option.isSome_iff_ne_none] using this
    · intro h r hr
      rw [h r hr]
      simp
  · intro g i h
    rcases i with _ | _ | _ | _ | _ | _ | _ | _ | _ | _ | _ | _ | i
    · have h1 : f.operatorId = g.operatorId := h
      show runChain f.operatorId "Operator ID" operatorIdChain =
        runChain g.operatorId "Operator ID" operatorIdChain
      rw [h1]
    · have h1 : f.instanceId = g.instanceId := h
      show runChain f.instanceId "Instance ID" instanceIdChain =
        runChain g.instanceId "Instance ID" instanceIdChain
      rw [h1]
    · have h1 : f.appVersion = g.appVersion := h
      show runChain f.appVersion "App Version" appVersionChain =
        runChain g.appVersion "App Version" appVersionChain
      rw [h1]
    · have h1 : f.deviceId = g.deviceId := h
      show runChain f.deviceId "Device ID" deviceIdChain =
        runChain g.deviceId "Device ID" deviceIdChain
      rw [h1]
    · have h1 : f.deviceName = g.deviceName := h
      show runChain f.deviceName "Device Name" deviceNameChain =
        runChain g.deviceName "Device Name" deviceNameChain
      rw [h1]
    · have h1 : f.status = g.status := h
      show runChain f.status "Status" statusChain =
        runChain g.status "Status" statusChain
      rw [h1]
    · have h1 : f.actionType = g.actionType := h
      show runChain f.actionType "Action Type" actionTypeChain =
        runChain g.actionType "Action Type" actionTypeChain
      rw [h1]
    · have h1 : f.voltage = g.voltage := h
      show runChain f.voltage "Voltage" voltageChain =
        runChain g.voltage "Voltage" voltageChain
      rw [h1]
    · have h1 : f.temperature = g.temperature := h
      show runChain f.temperature "Temperature" temperatureChain =
        runChain g.temperature "Temperature" temperatureChain
      rw [h1]
    · have h1 : f.severity = g.severity := h
      show runChain f.severity "Severity" severityChain =
        runChain g.severity "Severity" severityChain
      rw [h1]
    · have h1 : f.uiLatency = g.uiLatency := h
      show runChain f.uiLatency "UI Latency" uiLatencyChain =
        runChain g.uiLatency "UI Latency" uiLatencyChain
      rw [h1]
    · have h1 : f.notes = g.notes := h
      show runChain f.notes "Notes" notesChain =
        runChain g.notes "Notes" notesChain
      rw [h1]
    · rfl
  · exact runChain_first_failure
  · exact runChain_all_pass

end DCM
